import Mathlib

/-!
Verification of the android linker namespace bypass core
(android_linker_ns.cpp).

The development shallowly embeds the three components of the library:

* the hook application primitive (linkernsbypass_namespace_apply_hook),
  modelled as a pure function over the observable state of the hook
  library (whether its dlopen succeeds, and whether it exports the
  pointer-sized symbol hook_param together with the value stored there);
* the orchestrated load entry point (linkernsbypass_dlopen_unique_hooked),
  modelled as a state-passing function over an environment that fixes the
  outcome of every external call (namespace creation, file creation,
  ELF patching, final extended load) and over the process-wide TargetId
  counter; the function additionally records the ordered trace of
  external calls it performs, so that short-circuit properties are
  statable;
* the one-time symbol resolver (resolve_linker_symbols), modelled as a
  function over the outcomes of its eight resolution steps, and the
  ARM64 branch-with-link instruction scan it uses to locate the internal
  loader dlopen routine.

Machine integers are modelled as Nat or Int with explicit reduction
modulo 2 ^ 16 where the uint16_t counter overflows. Null pointers are
modelled as Option.none. Failure sentinels are Option.none or false,
exactly as in the source.
-/

namespace LinkerNsBypass

/-- Observable state of a hook library: whether loading it into the
namespace succeeds, and the hook_param slot (none when the library does
not export the symbol, some v when it does and currently stores v). -/
structure HookLib where
  loadsOk : Bool
  slot : Option Nat
deriving DecidableEq

/-- Model of linkernsbypass_namespace_apply_hook. Loads the hook library
(outcome given by the HookLib state); on success resolves the optional
hook_param slot and, mirroring the source: if the slot or a parameter is
present, either both are present (the slot is written) or the call fails. -/
def linkernsbypass_namespace_apply_hook (lib : HookLib) (hookParam : Option Nat) :
    Bool × HookLib :=
  if lib.loadsOk = false then (false, lib)
  else if lib.slot.isSome || hookParam.isSome then
    if lib.slot.isSome && hookParam.isSome then (true, { lib with slot := hookParam })
    else (false, lib)
  else (true, lib)

/-- Decimal digit character for a value below ten. -/
def decDigitChar (n : Nat) : Char := Char.ofNat (48 + n)

/-- Fuelled decimal digit expansion, most significant digit first. -/
def decDigitsAux : Nat → Nat → List Char
  | 0, _ => []
  | fuel + 1, n =>
      if n < 10 then [decDigitChar n]
      else decDigitsAux fuel (n / 10) ++ [decDigitChar (n % 10)]

/-- Decimal digit characters of n, most significant first. -/
def decDigits (n : Nat) : List Char := decDigitsAux (n + 1) n

/-- Zero padding to width 3, as the %03u conversion performs. -/
def pad3 (n : Nat) : List Char :=
  List.replicate (3 - (decDigits n).length) '0' ++ decDigits n

/-- Characters stored into the 3-byte sonameOverwrite buffer by
snprintf(buf, 3, "%03u", id): snprintf with size 3 stores at most two
characters before the mandatory terminator, so the %03u text is cut to
its first two characters. -/
def sonameOverwrite (id : Nat) : List Char := (pad3 id).take 2

/-- Modulus of the uint16_t TargetId counter. -/
def UINT16_MOD : Nat := 65536

/-- Trace of the external calls the load entry point performs, in
program order. Namespace handles are Option Nat, none for a null
handle. -/
inductive Event where
  | createNamespace (name : String) (searchPath : Option String) (parent : Option Nat) : Event
  | createNamespaceEscape (name : String) : Event
  | linkAllLibs (src tgt : Option Nat) : Event
  | applyHookCall (libName : String) (ns : Option Nat) : Event
  | openFile (path : String) : Event
  | memfdCreate (name : String) : Event
  | elfPatch (srcPath : String) (fd : Int) (identity : List Char) : Event
  | dlopenExt (path : String) (fd : Int) (ns : Option Nat) : Event
deriving DecidableEq

/-- Arguments of linkernsbypass_dlopen_unique_hooked; nullable pointers
are Option. -/
structure LoadArgs where
  libPath : String
  libTargetDir : Option String
  mode : Nat
  hookLibDir : Option String
  hookLibName : Option String
  parentNs : Option Nat
  linkToDefault : Bool
  hookParam : Option Nat
deriving DecidableEq

/-- Outcomes of the external calls a load attempt can make: the handle
returned by namespace creation, the handle of the default namespace
copy, the hook library state, the descriptor returned by open (minus
one on failure), the observable outcome of the memfd_create system call
(errno left at ENOSYS, and the returned descriptor), the result of
elf_soname_patch, and the handle returned by the final extended load. -/
structure LoadEnv where
  createNsResult : Option Nat
  defaultNsResult : Option Nat
  hookLib : HookLib
  openFd : Int
  memfdErrnoENOSYS : Bool
  memfdFd : Int
  patchOk : Bool
  dlopenResult : Option Nat
deriving DecidableEq

/-- Result of one load attempt: the returned handle (none for the null
failure sentinel), the TargetId counter after the call, the trace of
external calls made, and the hook library state after the call. -/
structure LoadResult where
  handle : Option Nat
  targetId : Nat
  events : List Event
  hookLib : HookLib
deriving DecidableEq

/-- Stage of the load entry point from destination-file creation
onward: obtain the destination descriptor (an open file named by the
current counter value in the target directory, or a memfd, which fails
when errno reports ENOSYS or the descriptor is negative), gate on the
descriptor, derive the replacement identity and increment the counter,
run the ELF patch and gate on it, then perform the final extended load
through the /proc/self/fd pseudo path. -/
def dlopenUniqueLoadStage (env : LoadEnv) (args : LoadArgs) (hookNs : Option Nat)
    (targetId : Nat) (ev : List Event) (lib : HookLib) : LoadResult :=
  let fdEv : Int × List Event :=
    match args.libTargetDir with
    | some dir =>
        (env.openFd, ev ++ [Event.openFile (dir ++ "/" ++ toString targetId ++ "_patched.so")])
    | none =>
        (if env.memfdErrnoENOSYS || env.memfdFd < 0 then (-1 : Int) else env.memfdFd,
         ev ++ [Event.memfdCreate args.libPath])
  let fd := fdEv.fst
  let ev := fdEv.snd
  if fd = -1 then ⟨none, targetId, ev, lib⟩
  else
    let identity := sonameOverwrite targetId
    let targetId' := (targetId + 1) % UINT16_MOD
    let ev := ev ++ [Event.elfPatch args.libPath fd identity]
    if env.patchOk = false then ⟨none, targetId', ev, lib⟩
    else
      ⟨env.dlopenResult, targetId',
       ev ++ [Event.dlopenExt ("/proc/self/fd/" ++ toString fd) fd hookNs], lib⟩

/-- Model of linkernsbypass_dlopen_unique_hooked. Creates the hook
namespace (result never checked in the source), optionally creates a
copy of the default namespace and links to it, unconditionally links to
the parent namespace, then gates on hook application (or on the
contract violation of a parameter without a hook), and continues with
the file, patch and load stage. The TargetId counter is threaded as
explicit state. -/
def linkernsbypass_dlopen_unique_hooked (env : LoadEnv) (args : LoadArgs)
    (targetId : Nat) : LoadResult :=
  let hookNs := env.createNsResult
  let ev0 : List Event :=
    Event.createNamespace args.libPath args.hookLibDir args.parentNs ::
      ((if args.linkToDefault then
          [Event.createNamespaceEscape "default_copy",
           Event.linkAllLibs hookNs env.defaultNsResult]
        else []) ++
       [Event.linkAllLibs hookNs args.parentNs])
  match args.hookLibName with
  | some name =>
      let hr := linkernsbypass_namespace_apply_hook env.hookLib args.hookParam
      let ev1 := ev0 ++ [Event.applyHookCall name hookNs]
      if hr.fst = false then ⟨none, targetId, ev1, hr.snd⟩
      else dlopenUniqueLoadStage env args hookNs targetId ev1 hr.snd
  | none =>
      if args.hookParam.isSome then ⟨none, targetId, ev0, env.hookLib⟩
      else dlopenUniqueLoadStage env args hookNs targetId ev0 env.hookLib

/-- Event classifier for the ELF patch call. -/
def isElfPatchEvent : Event → Bool
  | Event.elfPatch _ _ _ => true
  | _ => false

/-- Event classifier for the final extended load call. -/
def isDlopenExtEvent : Event → Bool
  | Event.dlopenExt _ _ _ => true
  | _ => false

/-- Event classifier for on-disk destination file creation. -/
def isOpenFileEvent : Event → Bool
  | Event.openFile _ => true
  | _ => false

/-- Event classifier for the hook application call. -/
def isApplyHookEvent : Event → Bool
  | Event.applyHookCall _ _ => true
  | _ => false

/-- Identities handed to the ELF patch calls of one attempt, in order. -/
def patchedIdentities (r : LoadResult) : List (List Char) :=
  r.events.filterMap fun e =>
    match e with
    | Event.elfPatch _ _ idn => some idn
    | _ => none

/-- Outcomes of the eight resolution steps performed by the one-time
initializer resolve_linker_symbols, in source order: the loader_dlopen
of ld-android.so, the two dlsym lookups in it, the loader_dlopen of
libdl_android.so, the two dlsym lookups in it, the dlopen of libdl.so,
and the dlsym lookup of android_dlopen_ext. -/
structure ResolveEnv where
  ldHandleOk : Bool
  linkAllLibsSymOk : Bool
  linkSymOk : Bool
  libdlAndroidHandleOk : Bool
  createNamespaceSymOk : Bool
  getExportedNamespaceSymOk : Bool
  libdlHandleOk : Bool
  dlopenExtSymOk : Bool
deriving DecidableEq

/-- Model of resolve_linker_symbols: the value of the lib_loaded flag
after the constructor ran. Every failed step returns early, leaving the
flag at its zero-initialised value false; only the fall-through end of
the function sets it true. -/
def resolve_linker_symbols (env : ResolveEnv) : Bool :=
  if env.ldHandleOk = false then false
  else if env.linkAllLibsSymOk = false then false
  else if env.linkSymOk = false then false
  else if env.libdlAndroidHandleOk = false then false
  else if env.createNamespaceSymOk = false then false
  else if env.getExportedNamespaceSymOk = false then false
  else if env.libdlHandleOk = false then false
  else if env.dlopenExtSymOk = false then false
  else true

/-- Model of linkernsbypass_load_status: returns the stored lib_loaded
flag, which no code outside the initializer ever writes. -/
def linkernsbypass_load_status (libLoaded : Bool) : Bool := libLoaded

/-- Six-bit signature field of a 32-bit instruction word: bits 26 to 31
(the sig bitfield of the BranchLinked union). -/
def blSig (w : Nat) : Nat := w / 2 ^ 26 % 2 ^ 6

/-- Raw 26-bit offset field of a 32-bit instruction word: bits 0 to 25
(the offset bitfield of the BranchLinked union, before sign
extension). -/
def blOffsetField (w : Nat) : Nat := w % 2 ^ 26

/-- Sign extension of the 26-bit offset field to a signed integer. -/
def signExtend26 (x : Nat) : Int :=
  if x < 2 ^ 25 then (x : Int) else (x : Int) - 2 ^ 26

/-- Model of BranchLinked.Verify: the signature field equals 0x25, the
fixed pattern of branch-with-link instructions. -/
def blVerify (w : Nat) : Bool := blSig w = 0x25

/-- Model of the instruction walk locating the internal loader dlopen:
starting at the entry address of the public dlopen, test each 32-bit
word in turn; at the first word whose signature field matches, return
that word's own address plus its sign-extended offset times four (the
pointer arithmetic blInstr + blInstr->offset advances in units of the
four-byte instruction word). Addresses are Int; the word list is the
instruction stream starting at addr, and none is returned when no word
of the list matches. -/
def scanForBL (addr : Int) : List Nat → Option Int
  | [] => none
  | w :: ws =>
      if blVerify w then some (addr + 4 * signExtend26 (blOffsetField w))
      else scanForBL (addr + 4) ws

/-- Environment in which every external call of a load attempt
succeeds. -/
def envOK : LoadEnv :=
  { createNsResult := some 11
    defaultNsResult := some 12
    hookLib := { loadsOk := true, slot := none }
    openFd := 3
    memfdErrnoENOSYS := false
    memfdFd := 5
    patchOk := true
    dlopenResult := some 99 }

/-- Concrete hookless load request against an on-disk target
directory. -/
def argsNoHook : LoadArgs :=
  { libPath := "/data/app/libtarget.so"
    libTargetDir := some "/data/local/tmp"
    mode := 2
    hookLibDir := some "/data/hookdir"
    hookLibName := none
    parentNs := some 7
    linkToDefault := true
    hookParam := none }

/-- Concrete load request that supplies a hook library. -/
def argsWithHook : LoadArgs :=
  { argsNoHook with hookLibName := some "libhook.so" }

/-- Environment in which creating the hook namespace returns a null
handle and everything else succeeds. -/
def envNsCreateFails : LoadEnv := { envOK with createNsResult := none }

/-- Environment in which loading the hook library fails and everything
else succeeds. -/
def envHookLoadFails : LoadEnv :=
  { envOK with hookLib := { loadsOk := false, slot := none } }

/-- Environment in which the ELF patch step fails and everything else
succeeds. -/
def envPatchFails : LoadEnv := { envOK with patchOk := false }

/-- Environment in which memfd_create reports ENOSYS and everything
else succeeds. -/
def envMemfdENOSYS : LoadEnv := { envOK with memfdErrnoENOSYS := true }

/-- Concrete hookless load request with a null target directory, so the
destination must be an anonymous memory-backed file. -/
def argsNoDir : LoadArgs := { argsNoHook with libTargetDir := none }

/-- Follows the wording of the spec, for comparison only: the directory
that contains the target library, i.e. the library path cut at its last
path separator. The source never computes this value; it is defined
here solely to compare the search path the code actually passes to
namespace creation against the one the spec names. -/
def specTargetLibDir (p : String) : String :=
  String.mk (((p.toList.reverse.dropWhile fun c => c ≠ '/').drop 1).reverse)

/-- Helper: the load stage only appends to the event trace it is given,
so the head of the trace is unchanged. -/
theorem dlopenUniqueLoadStage_events_head (env : LoadEnv) (args : LoadArgs)
    (hookNs : Option Nat) (targetId : Nat) (e : Event) (ev : List Event) (lib : HookLib) :
    (dlopenUniqueLoadStage env args hookNs targetId (e :: ev) lib).events.head? = some e := by
  unfold dlopenUniqueLoadStage
  cases args.libTargetDir <;> dsimp only <;> split_ifs <;> rfl

/-- Helper: the handle, final counter value and final hook library
state produced by the load stage do not depend on the namespace handle
nor on the event trace accumulated so far, only on the file, patch and
load outcomes of the environment. -/
theorem dlopenUniqueLoadStage_ns_irrelevant (env1 env2 : LoadEnv) (args : LoadArgs)
    (ns1 ns2 : Option Nat) (targetId : Nat) (ev1 ev2 : List Event) (lib : HookLib)
    (hopen : env1.openFd = env2.openFd)
    (hme : env1.memfdErrnoENOSYS = env2.memfdErrnoENOSYS)
    (hmf : env1.memfdFd = env2.memfdFd)
    (hpa : env1.patchOk = env2.patchOk)
    (hdl : env1.dlopenResult = env2.dlopenResult) :
    (dlopenUniqueLoadStage env1 args ns1 targetId ev1 lib).handle =
      (dlopenUniqueLoadStage env2 args ns2 targetId ev2 lib).handle ∧
    (dlopenUniqueLoadStage env1 args ns1 targetId ev1 lib).targetId =
      (dlopenUniqueLoadStage env2 args ns2 targetId ev2 lib).targetId ∧
    (dlopenUniqueLoadStage env1 args ns1 targetId ev1 lib).hookLib =
      (dlopenUniqueLoadStage env2 args ns2 targetId ev2 lib).hookLib := by
  unfold dlopenUniqueLoadStage
  cases args.libTargetDir <;> dsimp only <;> simp only [hopen, hme, hmf, hpa, hdl] <;>
    split_ifs <;> exact ⟨rfl, rfl, rfl⟩

/-- Helper: the load stage increments the counter, modulo 2 ^ 16,
exactly when its trace records an ELF patch call, and leaves it
unchanged otherwise. -/
theorem dlopenUniqueLoadStage_counter (env : LoadEnv) (args : LoadArgs)
    (hookNs : Option Nat) (targetId : Nat) (ev : List Event) (lib : HookLib)
    (hev : ev.any isElfPatchEvent = false) :
    ((dlopenUniqueLoadStage env args hookNs targetId ev lib).events.any isElfPatchEvent = true ∧
      (dlopenUniqueLoadStage env args hookNs targetId ev lib).targetId =
        (targetId + 1) % UINT16_MOD) ∨
    ((dlopenUniqueLoadStage env args hookNs targetId ev lib).events.any isElfPatchEvent = false ∧
      (dlopenUniqueLoadStage env args hookNs targetId ev lib).targetId = targetId) := by
  unfold dlopenUniqueLoadStage
  cases args.libTargetDir <;> dsimp only <;> split_ifs <;>
    first
      | exact Or.inr ⟨by simp [List.any_append, hev, isElfPatchEvent], rfl⟩
      | exact Or.inl ⟨by simp [List.any_append, isElfPatchEvent], rfl⟩

/-- Helper: when the ELF patch fails, the load stage returns the null
sentinel and records no final extended load call. -/
theorem dlopenUniqueLoadStage_patch_fail (env : LoadEnv) (args : LoadArgs)
    (hookNs : Option Nat) (targetId : Nat) (ev : List Event) (lib : HookLib)
    (hp : env.patchOk = false) (hev : ev.any isDlopenExtEvent = false) :
    (dlopenUniqueLoadStage env args hookNs targetId ev lib).handle = none ∧
    (dlopenUniqueLoadStage env args hookNs targetId ev lib).events.any isDlopenExtEvent
      = false := by
  unfold dlopenUniqueLoadStage
  cases args.libTargetDir <;> dsimp only <;> split_ifs <;>
    simp_all [List.any_append, isDlopenExtEvent]

/-- Helper: with no target directory and a failing memfd_create, the
load stage returns the null sentinel and records no on-disk file
creation. -/
theorem dlopenUniqueLoadStage_memfd_fail (env : LoadEnv) (args : LoadArgs)
    (hookNs : Option Nat) (targetId : Nat) (ev : List Event) (lib : HookLib)
    (hdir : args.libTargetDir = none)
    (hfail : env.memfdErrnoENOSYS = true ∨ env.memfdFd < 0)
    (hev : ev.any isOpenFileEvent = false) :
    (dlopenUniqueLoadStage env args hookNs targetId ev lib).handle = none ∧
    (dlopenUniqueLoadStage env args hookNs targetId ev lib).events.any isOpenFileEvent
      = false := by
  unfold dlopenUniqueLoadStage
  rw [hdir]
  dsimp only
  split_ifs <;> simp_all [List.any_append, isOpenFileEvent]

/-- Claim C4: for every call to apply-hook where the hook library loads
successfully: if a parameter is supplied and the hook lacks the
parameter slot, the call fails; if no parameter is supplied and the
hook has no slot, the call succeeds; if a parameter is supplied and the
slot is present, the call succeeds and the slot holds the supplied
parameter value afterwards. -/
theorem C4_hook_param_contract (p v : Nat) :
    (linkernsbypass_namespace_apply_hook { loadsOk := true, slot := none } (some p)).fst
      = false ∧
    (linkernsbypass_namespace_apply_hook { loadsOk := true, slot := none } none).fst
      = true ∧
    (linkernsbypass_namespace_apply_hook { loadsOk := true, slot := some v } (some p)).fst
      = true ∧
    (linkernsbypass_namespace_apply_hook { loadsOk := true, slot := some v } (some p)).snd.slot
      = some p :=
  ⟨rfl, rfl, rfl, rfl⟩

/-- Claim C10: when the hook library loads and exposes the parameter
slot but the caller supplies no parameter, apply-hook fails, leaving
the slot unchanged rather than succeeding with it unset. -/
theorem C10_slot_without_param_fails (v : Nat) :
    (linkernsbypass_namespace_apply_hook { loadsOk := true, slot := some v } none).fst
      = false ∧
    (linkernsbypass_namespace_apply_hook { loadsOk := true, slot := some v } none).snd.slot
      = some v :=
  ⟨rfl, rfl⟩

/-- Claim C5: the lib_loaded flag ends up true exactly when all eight
resolution steps of the one-time initializer succeed; any single
failure leaves it false, and the readiness query reports exactly the
stored flag, hence the same value on every call after initialization. -/
theorem C5_readiness_iff_all_resolutions (env : ResolveEnv) :
    resolve_linker_symbols env =
      (env.ldHandleOk && env.linkAllLibsSymOk && env.linkSymOk && env.libdlAndroidHandleOk &&
        env.createNamespaceSymOk && env.getExportedNamespaceSymOk && env.libdlHandleOk &&
        env.dlopenExtSymOk) ∧
    linkernsbypass_load_status (resolve_linker_symbols env) = resolve_linker_symbols env := by
  obtain ⟨a, b, c, d, e, f, g, h⟩ := env
  refine ⟨?_, rfl⟩
  cases a <;> cases b <;> cases c <;> cases d <;> cases e <;> cases f <;>
    cases g <;> cases h <;> rfl

/-- Claim C8: the instruction walk takes the first 32-bit word, scanning
forward from the entry address, whose 6-bit signature field matches the
branch-with-link pattern, and returns the address of that word plus its
sign-extended offset scaled to bytes. -/
theorem C8_first_branch_linked_selected (base : Int) (pre : List Nat) (w : Nat)
    (post : List Nat) (hpre : ∀ x ∈ pre, blVerify x = false) (hw : blVerify w = true) :
    scanForBL base (pre ++ w :: post) =
      some (base + 4 * (pre.length : Int) + 4 * signExtend26 (blOffsetField w)) := by
  induction pre generalizing base with
  | nil => simp [scanForBL, hw]
  | cons a as ih =>
      have ha : blVerify a = false := hpre a (List.mem_cons_self a as)
      have has : ∀ x ∈ as, blVerify x = false := fun x hx => hpre x (List.mem_cons_of_mem a hx)
      rw [List.cons_append, scanForBL, ha]
      rw [ih (base + 4) has]
      simp only [List.length_cons]
      push_cast
      ring_nf

/-- Witness for claim C8 at a concrete instruction stream: one
non-matching word 0xD503201F followed by the branch-with-link word
0x94000001. -/
theorem C8_first_branch_linked_selected_witness :
    scanForBL 4096 ([3573751839] ++ 2483027969 :: []) =
      some (4096 + 4 * (([3573751839] : List Nat).length : Int) +
        4 * signExtend26 (blOffsetField 2483027969)) :=
  C8_first_branch_linked_selected 4096 [3573751839] 2483027969 []
    (by decide) (by decide)

/-- Claim C9, counterexample: at a concrete call the first orchestration
step creates the namespace with the hook library directory as its search
path, which differs from the directory containing the target library. -/
theorem C9_search_path_is_hook_dir_counterexample :
    (linkernsbypass_dlopen_unique_hooked envOK argsNoHook 0).events.head? =
      some (Event.createNamespace "/data/app/libtarget.so" (some "/data/hookdir") (some 7)) ∧
    specTargetLibDir "/data/app/libtarget.so" ≠ "/data/hookdir" := by
  constructor
  · exact dlopenUniqueLoadStage_events_head envOK argsNoHook (some 11) 0 _ _ _
  · decide

/-- Claim C9 as amended: the first orchestration step of every call
creates a namespace named by the target library path, with the caller
supplied hook library directory (not the directory of the target
library) as its search path, parented under the caller supplied parent
namespace. -/
theorem C9_amended_first_step_namespace (env : LoadEnv) (args : LoadArgs) (tid : Nat) :
    (linkernsbypass_dlopen_unique_hooked env args tid).events.head? =
      some (Event.createNamespace args.libPath args.hookLibDir args.parentNs) := by
  unfold linkernsbypass_dlopen_unique_hooked
  cases args.hookLibName with
  | some name =>
      dsimp only
      by_cases hr : (linkernsbypass_namespace_apply_hook env.hookLib args.hookParam).fst = false
      · rw [if_pos hr]; rfl
      · rw [if_neg hr]
        exact dlopenUniqueLoadStage_events_head env args env.createNsResult tid _ _ _
  | none =>
      dsimp only
      by_cases hp : args.hookParam.isSome = true
      · rw [if_pos hp]; rfl
      · rw [if_neg hp]
        exact dlopenUniqueLoadStage_events_head env args env.createNsResult tid _ _ _

/-- Claim C1, evaluation at the failing input: with every external call
succeeding, the first two serialized load attempts both hand the
buffer text "00" to the ELF patcher, because snprintf into the 3-byte
sonameOverwrite buffer truncates the intended three digits to two, so
the derived identities already collide at N = 2; and the counter value
reached after 1000 attempts derives "10", not "000". -/
theorem C1_identity_truncation_collision :
    patchedIdentities (linkernsbypass_dlopen_unique_hooked envOK argsNoHook 0) = [['0', '0']] ∧
    (linkernsbypass_dlopen_unique_hooked envOK argsNoHook 0).targetId = 1 ∧
    patchedIdentities (linkernsbypass_dlopen_unique_hooked envOK argsNoHook 1) = [['0', '0']] ∧
    sonameOverwrite 1000 = ['1', '0'] := by
  refine ⟨?_, ?_, ?_, ?_⟩ <;> decide

/-- Claim C2, counterexample: with namespace creation returning a null
handle and every later call succeeding, the entry point still applies
the hook, still opens the destination file, still increments the
counter, and returns a non-null handle instead of the failure
sentinel. -/
theorem C2_ns_failure_not_gated_counterexample :
    (linkernsbypass_dlopen_unique_hooked envNsCreateFails argsWithHook 0).events.any
      isApplyHookEvent = true ∧
    (linkernsbypass_dlopen_unique_hooked envNsCreateFails argsWithHook 0).events.any
      isOpenFileEvent = true ∧
    (linkernsbypass_dlopen_unique_hooked envNsCreateFails argsWithHook 0).targetId = 1 ∧
    (linkernsbypass_dlopen_unique_hooked envNsCreateFails argsWithHook 0).handle = some 99 := by
  refine ⟨?_, ?_, ?_, ?_⟩ <;> decide

/-- Claim C2 as amended: the result of namespace creation is never
checked; the returned handle, the final counter value and the final
hook library state are the same whatever handle namespace creation
returns, so a failed creation gates nothing. The later steps (hook
application, destination file, ELF patch) remain hard gates. -/
theorem C2_amended_ns_result_never_gates (env : LoadEnv) (args : LoadArgs) (tid : Nat)
    (a b : Option Nat) :
    (linkernsbypass_dlopen_unique_hooked { env with createNsResult := a } args tid).handle =
      (linkernsbypass_dlopen_unique_hooked { env with createNsResult := b } args tid).handle ∧
    (linkernsbypass_dlopen_unique_hooked { env with createNsResult := a } args tid).targetId =
      (linkernsbypass_dlopen_unique_hooked { env with createNsResult := b } args tid).targetId ∧
    (linkernsbypass_dlopen_unique_hooked { env with createNsResult := a } args tid).hookLib =
      (linkernsbypass_dlopen_unique_hooked { env with createNsResult := b } args tid).hookLib := by
  unfold linkernsbypass_dlopen_unique_hooked
  cases args.hookLibName with
  | some name =>
      dsimp only
      by_cases hr : (linkernsbypass_namespace_apply_hook env.hookLib args.hookParam).fst = false
      · rw [if_pos hr, if_pos hr]
        exact ⟨rfl, rfl, rfl⟩
      · rw [if_neg hr, if_neg hr]
        exact dlopenUniqueLoadStage_ns_irrelevant _ _ args a b tid _ _ _ rfl rfl rfl rfl rfl
  | none =>
      dsimp only
      by_cases hp : args.hookParam.isSome = true
      · rw [if_pos hp, if_pos hp]
        exact ⟨rfl, rfl, rfl⟩
      · rw [if_neg hp, if_neg hp]
        exact dlopenUniqueLoadStage_ns_irrelevant _ _ args a b tid _ _ _ rfl rfl rfl rfl rfl

/-- Claim C3, counterexample: a call whose hook application fails
returns the failure sentinel without incrementing the counter, so the
counter is not incremented once per call at every failure point. -/
theorem C3_no_increment_on_hook_failure_counterexample :
    (linkernsbypass_dlopen_unique_hooked envHookLoadFails argsWithHook 5).handle = none ∧
    (linkernsbypass_dlopen_unique_hooked envHookLoadFails argsWithHook 5).targetId = 5 := by
  refine ⟨?_, ?_⟩ <;> decide

/-- Claim C3 as amended: the counter is never reset by a call, and is
incremented, modulo 2 ^ 16, exactly once per call that reaches the
identity-derivation step (witnessed by an ELF patch call in the trace),
even when the patch or the final load later fails; calls failing before
that step leave the counter unchanged. -/
theorem C3_amended_counter_increment (env : LoadEnv) (args : LoadArgs) (tid : Nat) :
    ((linkernsbypass_dlopen_unique_hooked env args tid).events.any isElfPatchEvent = true ∧
      (linkernsbypass_dlopen_unique_hooked env args tid).targetId = (tid + 1) % UINT16_MOD) ∨
    ((linkernsbypass_dlopen_unique_hooked env args tid).events.any isElfPatchEvent = false ∧
      (linkernsbypass_dlopen_unique_hooked env args tid).targetId = tid) := by
  unfold linkernsbypass_dlopen_unique_hooked
  cases args.hookLibName with
  | some name =>
      dsimp only
      by_cases hr : (linkernsbypass_namespace_apply_hook env.hookLib args.hookParam).fst = false
      · rw [if_pos hr]
        exact Or.inr ⟨by cases args.linkToDefault <;> simp [isElfPatchEvent], rfl⟩
      · rw [if_neg hr]
        exact dlopenUniqueLoadStage_counter env args _ tid _ _
          (by cases args.linkToDefault <;> simp [isElfPatchEvent])
  | none =>
      dsimp only
      by_cases hp : args.hookParam.isSome = true
      · rw [if_pos hp]
        exact Or.inr ⟨by cases args.linkToDefault <;> simp [isElfPatchEvent], rfl⟩
      · rw [if_neg hp]
        exact dlopenUniqueLoadStage_counter env args _ tid _ _
          (by cases args.linkToDefault <;> simp [isElfPatchEvent])

/-- Claim C6: whenever the ELF patch step fails, the entry point
returns the null failure sentinel and its trace records no final
extended load call, so the destination descriptor is never passed to
the final load. -/
theorem C6_patch_failure_no_final_load (env : LoadEnv) (args : LoadArgs) (tid : Nat)
    (hp : env.patchOk = false) :
    (linkernsbypass_dlopen_unique_hooked env args tid).handle = none ∧
    (linkernsbypass_dlopen_unique_hooked env args tid).events.any isDlopenExtEvent = false := by
  unfold linkernsbypass_dlopen_unique_hooked
  cases args.hookLibName with
  | some name =>
      dsimp only
      by_cases hr : (linkernsbypass_namespace_apply_hook env.hookLib args.hookParam).fst = false
      · rw [if_pos hr]
        exact ⟨rfl, by cases args.linkToDefault <;> simp [isDlopenExtEvent]⟩
      · rw [if_neg hr]
        exact dlopenUniqueLoadStage_patch_fail env args _ tid _ _ hp
          (by cases args.linkToDefault <;> simp [isDlopenExtEvent])
  | none =>
      dsimp only
      by_cases hpp : args.hookParam.isSome = true
      · rw [if_pos hpp]
        exact ⟨rfl, by cases args.linkToDefault <;> simp [isDlopenExtEvent]⟩
      · rw [if_neg hpp]
        exact dlopenUniqueLoadStage_patch_fail env args _ tid _ _ hp
          (by cases args.linkToDefault <;> simp [isDlopenExtEvent])

/-- Witness for claim C6 at a concrete input: a hookless request in an
environment where only the ELF patch fails. -/
theorem C6_patch_failure_no_final_load_witness :
    (linkernsbypass_dlopen_unique_hooked envPatchFails argsNoHook 0).handle = none ∧
    (linkernsbypass_dlopen_unique_hooked envPatchFails argsNoHook 0).events.any
      isDlopenExtEvent = false :=
  C6_patch_failure_no_final_load envPatchFails argsNoHook 0 rfl

/-- Claim C7: with a null target directory, if anonymous memory-backed
file creation is unsupported (ENOSYS) or otherwise fails, the entry
point returns the failure sentinel and its trace records no on-disk
file creation, so there is no fall back to a real file. -/
theorem C7_memfd_failure_no_disk_fallback (env : LoadEnv) (args : LoadArgs) (tid : Nat)
    (hdir : args.libTargetDir = none)
    (hfail : env.memfdErrnoENOSYS = true ∨ env.memfdFd < 0) :
    (linkernsbypass_dlopen_unique_hooked env args tid).handle = none ∧
    (linkernsbypass_dlopen_unique_hooked env args tid).events.any isOpenFileEvent = false := by
  unfold linkernsbypass_dlopen_unique_hooked
  cases args.hookLibName with
  | some name =>
      dsimp only
      by_cases hr : (linkernsbypass_namespace_apply_hook env.hookLib args.hookParam).fst = false
      · rw [if_pos hr]
        exact ⟨rfl, by cases args.linkToDefault <;> simp [isOpenFileEvent]⟩
      · rw [if_neg hr]
        exact dlopenUniqueLoadStage_memfd_fail env args _ tid _ _ hdir hfail
          (by cases args.linkToDefault <;> simp [isOpenFileEvent])
  | none =>
      dsimp only
      by_cases hpp : args.hookParam.isSome = true
      · rw [if_pos hpp]
        exact ⟨rfl, by cases args.linkToDefault <;> simp [isOpenFileEvent]⟩
      · rw [if_neg hpp]
        exact dlopenUniqueLoadStage_memfd_fail env args _ tid _ _ hdir hfail
          (by cases args.linkToDefault <;> simp [isOpenFileEvent])

/-- Witness for claim C7 at a concrete input: a hookless request with
no target directory in an environment where memfd_create leaves errno
at ENOSYS. -/
theorem C7_memfd_failure_no_disk_fallback_witness :
    (linkernsbypass_dlopen_unique_hooked envMemfdENOSYS argsNoDir 0).handle = none ∧
    (linkernsbypass_dlopen_unique_hooked envMemfdENOSYS argsNoDir 0).events.any
      isOpenFileEvent = false :=
  C7_memfd_failure_no_disk_fallback envMemfdENOSYS argsNoDir 0 rfl (Or.inl rfl)

end LinkerNsBypass
